import Mathlib

/-!
Shallow embedding of the salin-translator bot (src/main.go).

The program has two pieces of logic:
- reactionAdd: the reaction-event handler, which filters events, fetches
  the reacted-to message, invokes the translation client, and posts a
  reply embed;
- translateWithOpenAI: the translation client, which builds a fixed
  prompt and one-message completion request, performs one HTTP POST, and
  classifies the response.

Network interactions are modelled by oracles: the message fetch is a
function from (channel id, message id) to a result, and the HTTP POST is
a function from (request body, bearer token) to a transport-level result
whose body is already run through the JSON decoder. The handler returns
the list of externally visible effects it performs, in order.
-/

namespace Salin

/-- A reaction-added event as consumed by reactionAdd: the fields of
discordgo.MessageReactionAdd that the handler reads. -/
structure ReactionEvent where
  userID : String
  emojiName : String
  channelID : String
  messageID : String
deriving DecidableEq, Repr

/-- The author data of a fetched message that the handler reads:
msg.Author.Username and the result of msg.Author.AvatarURL at the empty
size argument. -/
structure Author where
  username : String
  avatarURL : String
deriving DecidableEq, Repr

/-- A fetched channel message: the fields the handler reads. -/
structure DiscordMessage where
  content : String
  author : Author
deriving DecidableEq, Repr

/-- One role/content pair of the completion request (struct Message in
main.go). -/
structure Message where
  role : String
  content : String
deriving DecidableEq, Repr

/-- The completion request body (struct OpenAIRequest in main.go). -/
structure OpenAIRequest where
  model : String
  messages : List Message
deriving DecidableEq, Repr

/-- The message part of one completion candidate (the inner anonymous
struct of OpenAIResponse in main.go). -/
structure ChoiceMessage where
  content : String
deriving DecidableEq, Repr

/-- One completion candidate (the element type of OpenAIResponse.Choices
in main.go). -/
structure Choice where
  message : ChoiceMessage
deriving DecidableEq, Repr

/-- The decoded completion response body (struct OpenAIResponse in
main.go). -/
structure OpenAIResponse where
  choices : List Choice
deriving DecidableEq, Repr

/-- The reply embed the handler constructs (the discordgo.MessageEmbed
fields set in main.go). -/
structure Embed where
  authorName : String
  authorIconURL : String
  description : String
  footerText : String
  color : Nat
deriving DecidableEq, Repr

/-- The error cases of translateWithOpenAI, one per return site in
main.go. Transport covers a failed client.Do call, statusError carries
the non-200 numeric status code, decodeError is a JSON decoding failure,
and noTranslation is an empty choices list. -/
inductive TransError where
  | transportError
  | statusError (code : Nat)
  | decodeError
  | noTranslation
deriving DecidableEq, Repr

/-- The outcome of the single HTTP POST of translateWithOpenAI, as the
client observes it: either client.Do fails at the transport level, or a
response arrives with a status code and a body whose JSON decoding into
OpenAIResponse either fails or yields a value. -/
inductive HTTPResult where
  | transportFail
  | response (statusCode : Nat) (decoded : Except Unit OpenAIResponse)

/-- An externally visible effect of the handler, in the order performed:
the s.ChannelMessage fetch, the invocation of the translation client
(whose body is the one HTTP POST to the completion service), and the
s.ChannelMessageSendEmbed reply post. -/
inductive Effect where
  | fetchMessage (channelID : String) (messageID : String)
  | translateCall (text : String) (targetLang : String) (token : String)
  | postEmbed (channelID : String) (embed : Embed)
deriving DecidableEq, Repr

/-- The flag-emoji to language map flagToLang of main.go, as a function
from emoji identifier to optional language name. -/
def flagToLang : String → Option String
  | "🇺🇸" => some "English"
  | "🇬🇧" => some "English"
  | "🇪🇸" => some "Spanish"
  | "🇫🇷" => some "French"
  | "🇩🇪" => some "German"
  | "🇮🇹" => some "Italian"
  | "🇯🇵" => some "Japanese"
  | "🇰🇷" => some "Korean"
  | "🇨🇳" => some "Chinese"
  | "🇵🇹" => some "Portuguese"
  | "🇷🇺" => some "Russian"
  | _ => none

/-- The instruction prompt built by translateWithOpenAI via fmt.Sprintf:
the fixed shape with the target language and source text spliced in. -/
def mkPrompt (text targetLang : String) : String :=
  "Translate the following text to " ++ targetLang ++
    ". Only respond with the translation, nothing else: " ++ text

/-- The requestBody value built by translateWithOpenAI: the fixed model
identifier and a single user-role message holding the prompt. -/
def mkRequestBody (text targetLang : String) : OpenAIRequest :=
  { model := "gpt-3.5-turbo"
    messages := [{ role := "user", content := mkPrompt text targetLang }] }

/-- translateWithOpenAI of main.go. The send oracle stands for the HTTP
POST of the built request body with the bearer token; the function
mirrors the Go control flow: transport failure, then the non-200 status
check, then JSON decoding, then the empty-choices check, and finally the
first choice content. The Go function returns a (string, error) pair in
which every error site returns the empty string; this is modelled as a
pair of the result string and an optional error. -/
def translateWithOpenAI (text targetLang openAIToken : String)
    (send : OpenAIRequest → String → HTTPResult) : String × Option TransError :=
  match send (mkRequestBody text targetLang) openAIToken with
  | .transportFail => ("", some .transportError)
  | .response statusCode decoded =>
    if statusCode ≠ 200 then
      ("", some (.statusError statusCode))
    else
      match decoded with
      | .error _ => ("", some .decodeError)
      | .ok response =>
        match response.choices with
        | [] => ("", some .noTranslation)
        | c :: _ => (c.message.content, none)

/-- The reply embed constructed by the handler: author name and avatar
from the source message, the translation as description, the footer text
built by fmt.Sprintf from the target language, and the fixed color. -/
def mkEmbed (msg : DiscordMessage) (translation targetLang : String) : Embed :=
  { authorName := msg.author.username
    authorIconURL := msg.author.avatarURL
    description := translation
    footerText := "Translated to " ++ targetLang
    color := 0x00BFFF }

/-- reactionAdd of main.go, as the list of effects performed. botID is
s.State.User.ID; fetch is s.ChannelMessage as an oracle from channel and
message ids to either an error or a message; send is the HTTP oracle
passed through to the translation client; openAIToken is
h.config.OpenAIToken. Every early return in the Go code corresponds to
returning the effects performed so far. -/
def reactionAdd (botID : String)
    (fetch : String → String → Except String DiscordMessage)
    (send : OpenAIRequest → String → HTTPResult)
    (openAIToken : String) (r : ReactionEvent) : List Effect :=
  if r.userID = botID then
    []
  else
    match flagToLang r.emojiName with
    | none => []
    | some targetLang =>
      match fetch r.channelID r.messageID with
      | .error _ => [.fetchMessage r.channelID r.messageID]
      | .ok msg =>
        if msg.content = "" then
          [.fetchMessage r.channelID r.messageID]
        else
          let result := translateWithOpenAI msg.content targetLang openAIToken send
          match result.2 with
          | some _ =>
            [.fetchMessage r.channelID r.messageID,
             .translateCall msg.content targetLang openAIToken]
          | none =>
            [.fetchMessage r.channelID r.messageID,
             .translateCall msg.content targetLang openAIToken,
             .postEmbed r.channelID (mkEmbed msg result.1 targetLang)]

/-! Concrete oracles used by the closed end-to-end theorem and by the
witnesses of the hypothesised theorems. -/

/-- A fetch oracle returning, for every channel and message id, a message
with content Hello there authored by Alice. -/
def fetchHello : String → String → Except String DiscordMessage :=
  fun _ _ =>
    .ok { content := "Hello there"
          author := { username := "Alice", avatarURL := "https://cdn.example/alice.png" } }

/-- A fetch oracle returning a message whose content is empty. -/
def fetchEmpty : String → String → Except String DiscordMessage :=
  fun _ _ =>
    .ok { content := ""
          author := { username := "Alice", avatarURL := "https://cdn.example/alice.png" } }

/-- A fetch oracle returning a message whose content is a single space:
non-empty, but consisting solely of whitespace. -/
def fetchSpace : String → String → Except String DiscordMessage :=
  fun _ _ =>
    .ok { content := " "
          author := { username := "Alice", avatarURL := "https://cdn.example/alice.png" } }

/-- An HTTP oracle standing for a stubbed service that answers every
request with status 200 and a body decoding to one choice whose message
content is Hola: the decoding of the JSON text
  {"choices":[{"message":{"content":"Hola"}}]}. -/
def sendHola : OpenAIRequest → String → HTTPResult :=
  fun _ _ => .response 200 (.ok { choices := [{ message := { content := "Hola" } }] })

/-- An HTTP oracle standing for a service that answers every request with
status 500 and a body that does not decode. -/
def send500 : OpenAIRequest → String → HTTPResult :=
  fun _ _ => .response 500 (.error ())

/-- An HTTP oracle standing for a service that answers every request with
status 200 and a body decoding to an empty choices list. -/
def sendNoChoices : OpenAIRequest → String → HTTPResult :=
  fun _ _ => .response 200 (.ok { choices := [] })

/-- C1: for every reaction event whose emoji identifier is not a key of
the emoji-language mapping, handling the event performs no effects at
all: no message fetch, no translation-service call, no reply post. -/
theorem reactionAdd_unsupported_emoji_noop (botID openAIToken : String)
    (fetch : String → String → Except String DiscordMessage)
    (send : OpenAIRequest → String → HTTPResult) (r : ReactionEvent)
    (h : flagToLang r.emojiName = none) :
    reactionAdd botID fetch send openAIToken r = [] := by
  unfold reactionAdd
  split
  · rfl
  · rw [h]

/-- Witness for C1 at a concrete unsupported emoji. -/
theorem reactionAdd_unsupported_emoji_noop_witness :
    flagToLang "🙂" = none ∧
      reactionAdd "botUser" fetchHello sendHola "tok"
        ⟨"alice", "🙂", "chan", "msg"⟩ = [] :=
  ⟨by decide,
   reactionAdd_unsupported_emoji_noop "botUser" "tok" fetchHello sendHola
     ⟨"alice", "🙂", "chan", "msg"⟩ (by decide)⟩

/-- C2: for every reaction event whose reacting user id equals the bot
identity, handling the event performs no effects, whatever the emoji. -/
theorem reactionAdd_self_reaction_noop (botID openAIToken : String)
    (fetch : String → String → Except String DiscordMessage)
    (send : OpenAIRequest → String → HTTPResult) (r : ReactionEvent)
    (h : r.userID = botID) :
    reactionAdd botID fetch send openAIToken r = [] := by
  unfold reactionAdd
  rw [if_pos h]

/-- Witness for C2 at a supported emoji, where only the self filter can
be responsible for the empty trace. -/
theorem reactionAdd_self_reaction_noop_witness :
    ("botUser" : String) = "botUser" ∧
      reactionAdd "botUser" fetchHello sendHola "tok"
        ⟨"botUser", "🇪🇸", "chan", "msg"⟩ = [] :=
  ⟨rfl,
   reactionAdd_self_reaction_noop "botUser" "tok" fetchHello sendHola
     ⟨"botUser", "🇪🇸", "chan", "msg"⟩ rfl⟩

/-- C3: for every reaction event with a supported emoji whose fetched
message has empty content, handling stops right after the fetch: the
trace is exactly the fetch, with no translation call and no reply. -/
theorem reactionAdd_empty_content_stops_after_fetch
    (botID openAIToken : String)
    (fetch : String → String → Except String DiscordMessage)
    (send : OpenAIRequest → String → HTTPResult) (r : ReactionEvent)
    (targetLang : String) (msg : DiscordMessage)
    (huser : r.userID ≠ botID)
    (hlang : flagToLang r.emojiName = some targetLang)
    (hfetch : fetch r.channelID r.messageID = .ok msg)
    (hempty : msg.content = "") :
    reactionAdd botID fetch send openAIToken r =
      [.fetchMessage r.channelID r.messageID] := by
  simp [reactionAdd, huser, hlang, hfetch, hempty]

/-- Witness for C3 at a concrete event whose fetched message is empty. -/
theorem reactionAdd_empty_content_stops_after_fetch_witness :
    ("alice" : String) ≠ "botUser" ∧
    flagToLang "🇪🇸" = some "Spanish" ∧
    fetchEmpty "chan" "msg" =
      .ok ⟨"", ⟨"Alice", "https://cdn.example/alice.png"⟩⟩ ∧
    reactionAdd "botUser" fetchEmpty sendHola "tok"
        ⟨"alice", "🇪🇸", "chan", "msg"⟩ = [.fetchMessage "chan" "msg"] :=
  ⟨by decide, by decide, rfl,
   reactionAdd_empty_content_stops_after_fetch "botUser" "tok" fetchEmpty
     sendHola ⟨"alice", "🇪🇸", "chan", "msg"⟩ "Spanish"
     ⟨"", ⟨"Alice", "https://cdn.example/alice.png"⟩⟩
     (by decide) (by decide) rfl rfl⟩

/-- C4: end-to-end run. A reaction with the Spain flag on a message with
content Hello there authored by Alice, with the service stubbed to
answer status 200 with the decoding of
{"choices":[{"message":{"content":"Hola"}}]}, produces exactly: the
fetch, a translation-client invocation with (Hello there, Spanish,
credential), and a reply embed posted on the same channel with
description Hola, footer Translated to Spanish, and author name
Alice. -/
theorem reactionAdd_spanish_end_to_end :
    reactionAdd "botUser" fetchHello sendHola "cred"
        ⟨"alice", "🇪🇸", "chan", "msg"⟩ =
      [.fetchMessage "chan" "msg",
       .translateCall "Hello there" "Spanish" "cred",
       .postEmbed "chan"
         { authorName := "Alice"
           authorIconURL := "https://cdn.example/alice.png"
           description := "Hola"
           footerText := "Translated to Spanish"
           color := 0x00BFFF }] := by
  decide

/-- C5: for every source text and target language, the request the
translation client builds carries the fixed model identifier and exactly
one message, of role user, whose content is exactly the fixed prompt
shape around the target language and source text. -/
theorem translateWithOpenAI_request_shape (text targetLang : String) :
    (mkRequestBody text targetLang).model = "gpt-3.5-turbo" ∧
    (mkRequestBody text targetLang).messages =
      [{ role := "user"
         content := "Translate the following text to " ++ targetLang ++
           ". Only respond with the translation, nothing else: " ++ text }] :=
  ⟨rfl, rfl⟩

/-- C6: two supported emoji identifiers resolving to the same target
language yield identical constructed prompts, and identical full request
bodies, for every fixed source text. -/
theorem same_language_same_prompt (e1 e2 text targetLang : String)
    (h1 : flagToLang e1 = some targetLang)
    (h2 : flagToLang e2 = some targetLang) :
    (flagToLang e1).map (mkPrompt text) = (flagToLang e2).map (mkPrompt text) ∧
    (flagToLang e1).map (mkRequestBody text) =
      (flagToLang e2).map (mkRequestBody text) := by
  rw [h1, h2]
  exact ⟨rfl, rfl⟩

/-- Witness for C6 at the US and UK flags, which both resolve to
English. -/
theorem same_language_same_prompt_witness :
    flagToLang "🇺🇸" = some "English" ∧
    flagToLang "🇬🇧" = some "English" ∧
    (flagToLang "🇺🇸").map (mkPrompt "Good morning") =
      (flagToLang "🇬🇧").map (mkPrompt "Good morning") :=
  ⟨by decide, by decide,
   (same_language_same_prompt "🇺🇸" "🇬🇧" "Good morning" "English"
     (by decide) (by decide)).1⟩

/-- C7: whenever the single HTTP call of the translation client answers
with a non-200 status, the client returns the error carrying that
numeric status code, with an empty result string. -/
theorem translateWithOpenAI_non200_returns_status_error
    (text targetLang openAIToken : String)
    (send : OpenAIRequest → String → HTTPResult)
    (status : Nat) (decoded : Except Unit OpenAIResponse)
    (hsend : send (mkRequestBody text targetLang) openAIToken =
      .response status decoded)
    (hstatus : status ≠ 200) :
    translateWithOpenAI text targetLang openAIToken send =
      ("", some (.statusError status)) := by
  unfold translateWithOpenAI
  rw [hsend]
  simp [hstatus]

/-- Witness for C7 at a stubbed status-500 response. -/
theorem translateWithOpenAI_non200_returns_status_error_witness :
    send500 (mkRequestBody "Hello there" "Spanish") "tok" =
      .response 500 (.error ()) ∧
    translateWithOpenAI "Hello there" "Spanish" "tok" send500 =
      ("", some (.statusError 500)) :=
  ⟨rfl,
   translateWithOpenAI_non200_returns_status_error "Hello there" "Spanish"
     "tok" send500 500 (.error ()) rfl (by decide)⟩

/-- C8: when the service answers every request with status 200 and a
body decoding to zero completion candidates, the translation client
returns the no-translation error (with an empty result string), and the
handler posts no reply embed for any event. -/
theorem translateWithOpenAI_zero_choices_error_and_no_reply
    (send : OpenAIRequest → String → HTTPResult)
    (hsend : ∀ req tok, send req tok = .response 200 (.ok { choices := [] }))
    (text targetLang openAIToken botID handlerToken : String)
    (fetch : String → String → Except String DiscordMessage)
    (r : ReactionEvent) (ch : String) (e : Embed) :
    translateWithOpenAI text targetLang openAIToken send =
      ("", some .noTranslation) ∧
    Effect.postEmbed ch e ∉ reactionAdd botID fetch send handlerToken r := by
  have hres : ∀ t l tk, translateWithOpenAI t l tk send =
      ("", some .noTranslation) := by
    intro t l tk
    unfold translateWithOpenAI
    rw [hsend]
    simp
  refine ⟨hres text targetLang openAIToken, ?_⟩
  unfold reactionAdd
  split
  · simp
  · split
    · simp
    · split
      · simp
      · split
        · simp
        · rw [hres]
          simp

/-- Witness for C8 at a concrete event and stubbed zero-candidate
service. -/
theorem translateWithOpenAI_zero_choices_error_and_no_reply_witness :
    translateWithOpenAI "Hello there" "Spanish" "tok" sendNoChoices =
      ("", some .noTranslation) ∧
    Effect.postEmbed "chan" (mkEmbed ⟨"Hello there",
        ⟨"Alice", "https://cdn.example/alice.png"⟩⟩ "Hola" "Spanish") ∉
      reactionAdd "botUser" fetchHello sendNoChoices "tok"
        ⟨"alice", "🇪🇸", "chan", "msg"⟩ :=
  translateWithOpenAI_zero_choices_error_and_no_reply sendNoChoices
    (fun _ _ => rfl) "Hello there" "Spanish" "tok" "botUser" "tok"
    fetchHello ⟨"alice", "🇪🇸", "chan", "msg"⟩ "chan"
    (mkEmbed ⟨"Hello there", ⟨"Alice", "https://cdn.example/alice.png"⟩⟩
      "Hola" "Spanish")

/-- C9: the empty-content filter compares against the empty string only:
for every fetched message with non-empty content, whitespace-only
included, handling a supported-emoji reaction goes on to invoke the
translation client with that exact content. -/
theorem reactionAdd_nonempty_content_invokes_translation
    (botID openAIToken : String)
    (fetch : String → String → Except String DiscordMessage)
    (send : OpenAIRequest → String → HTTPResult) (r : ReactionEvent)
    (targetLang : String) (msg : DiscordMessage)
    (huser : r.userID ≠ botID)
    (hlang : flagToLang r.emojiName = some targetLang)
    (hfetch : fetch r.channelID r.messageID = .ok msg)
    (hne : msg.content ≠ "") :
    Effect.translateCall msg.content targetLang openAIToken ∈
      reactionAdd botID fetch send openAIToken r := by
  simp only [reactionAdd, if_neg huser, hlang, hfetch, if_neg hne]
  split
  · simp
  · simp

/-- Witness for C9 at a message whose content is a single space. -/
theorem reactionAdd_nonempty_content_invokes_translation_witness :
    ("alice" : String) ≠ "botUser" ∧
    fetchSpace "chan" "msg" =
      .ok ⟨" ", ⟨"Alice", "https://cdn.example/alice.png"⟩⟩ ∧
    (" " : String) ≠ "" ∧
    Effect.translateCall " " "Spanish" "tok" ∈
      reactionAdd "botUser" fetchSpace sendHola "tok"
        ⟨"alice", "🇪🇸", "chan", "msg"⟩ :=
  ⟨by decide, rfl, by decide,
   reactionAdd_nonempty_content_invokes_translation "botUser" "tok"
     fetchSpace sendHola ⟨"alice", "🇪🇸", "chan", "msg"⟩ "Spanish"
     ⟨" ", ⟨"Alice", "https://cdn.example/alice.png"⟩⟩
     (by decide) (by decide) rfl (by decide)⟩

/-- C10: the status check comes before body decoding — for a non-200
response the result is the status-code error whatever the body decoding
would give, never a decode or zero-candidates error — and every error
return of the translation client carries an empty result string. -/
theorem translateWithOpenAI_status_first_and_empty_on_error
    (text targetLang openAIToken : String)
    (send : OpenAIRequest → String → HTTPResult) :
    (∀ status decoded,
        send (mkRequestBody text targetLang) openAIToken =
          .response status decoded →
        status ≠ 200 →
        translateWithOpenAI text targetLang openAIToken send =
          ("", some (.statusError status))) ∧
    (∀ e, (translateWithOpenAI text targetLang openAIToken send).2 = some e →
        (translateWithOpenAI text targetLang openAIToken send).1 = "") := by
  constructor
  · intro status decoded hsend hstatus
    unfold translateWithOpenAI
    rw [hsend]
    simp [hstatus]
  · intro e he
    rcases hr : send (mkRequestBody text targetLang) openAIToken with _ | ⟨status, decoded⟩
    · unfold translateWithOpenAI
      simp [hr]
    · unfold translateWithOpenAI at he ⊢
      rw [hr] at he ⊢
      by_cases hs : status = 200
      · subst hs
        simp only [ne_eq, not_true_eq_false, if_false] at he ⊢
        cases decoded with
        | error u => simp
        | ok response =>
          cases hc : response.choices with
          | nil => simp [hc]
          | cons c rest => simp [hc] at he
      · simp [hs]

/-- Witness for C10: a status-500 response with an undecodable body
yields the status error, and a zero-candidate success yields an empty
result string. -/
theorem translateWithOpenAI_status_first_and_empty_on_error_witness :
    translateWithOpenAI "Hi" "French" "tok" send500 =
      ("", some (.statusError 500)) ∧
    (translateWithOpenAI "Hi" "French" "tok" sendNoChoices).1 = "" :=
  ⟨(translateWithOpenAI_status_first_and_empty_on_error "Hi" "French" "tok"
      send500).1 500 (.error ()) rfl (by decide),
   (translateWithOpenAI_status_first_and_empty_on_error "Hi" "French" "tok"
      sendNoChoices).2 .noTranslation rfl⟩

end Salin
